import Mathlib

/-!
# Typed configuration accessors of `config/helpers.c`

A shallow embedding of the eight accessors `cs_subset_address`, `cs_subset_bool`,
`cs_subset_long`, `cs_subset_number`, `cs_subset_quad`, `cs_subset_regex`,
`cs_subset_slist` and `cs_subset_string`, followed by the properties the
specification states about them.

Conventions of the embedding:

* a nullable C pointer argument (`sub`, `name`) is an `Option`;
* `intptr_t`, `long` and data pointers are mathematical integers (`Int`); on the
  platforms the program builds for these three have one common width, so the
  casts `(long) value` and `(const T *) value` keep the number; `NULL` is `0`;
* `(short) value` and `(enum QuadOption) value` narrow to 16 and 32 bits, two's
  complement;
* the declarations the file includes but does not define (`DTYPE`, the `DT_*`
  tags, `MUTT_ABORT`) are fields of `Consts`; the two functions it calls but
  does not define (`cs_subset_create_inheritance`, `cs_subset_he_native_get`)
  are fields of `Collab`.
-/

namespace Helpers

/-! ## Machine integers -/

/-- The constant `INT_MIN` of `<limits.h>` for a 32-bit `int`. -/
def INT_MIN : Int := -2147483648

/-- The null pointer, as an `intptr_t`. -/
def NULL : Int := 0

/-- Narrowing conversion of an integer to a signed type of `w + 1` bits:
the residue modulo `2 ^ (w + 1)`, read as two's complement. -/
def narrow (w : Nat) (v : Int) : Int :=
  let m := v % (2 ^ (w + 1))
  if m < 2 ^ w then m else m - 2 ^ (w + 1)

/-- The cast `(short) value`. -/
def castShort (v : Int) : Int := narrow 15 v

/-- The cast `(enum QuadOption) value`; the enumeration has a negative member, so
its representation is `int`. -/
def castQuad (v : Int) : Int := narrow 31 v

/-- The cast `(bool) value`. -/
def castBool (v : Int) : Bool := decide (v ≠ 0)

/-! ## Declarations used by the accessors -/

/-- The part of `struct HashElem` the accessors read (`he->type`), together with
the element's data pointer. -/
structure HashElem where
  type : Nat
  data : Int
deriving DecidableEq, Repr

/-- The macro `DTYPE`, the type tags `DT_*` and the enumerator `MUTT_ABORT`, which
the accessors use and other headers define. -/
structure Consts where
  DTYPE : Nat → Nat
  DT_ADDRESS : Nat
  DT_BOOL : Nat
  DT_LONG : Nat
  DT_NUMBER : Nat
  DT_QUAD : Nat
  DT_REGEX : Nat
  DT_SLIST : Nat
  DT_STRING : Nat
  MUTT_ABORT : Int

/-- The two functions the accessors call: the resolver
`cs_subset_create_inheritance (sub, name)`, which yields a hash element or null,
and `cs_subset_he_native_get (sub, he, err)`, which yields an `intptr_t`. -/
structure Collab (Sub : Type) where
  cs_subset_create_inheritance : Sub → String → Option HashElem
  cs_subset_he_native_get : Sub → HashElem → Int → Int

variable {Sub : Type}

/-! ## The eight accessors -/

/-- Get an Address config item by name: `cs_subset_address`. -/
def cs_subset_address (K : Consts) (C : Collab Sub) (sub : Option Sub)
    (name : Option String) : Int :=
  match sub, name with
  | some s, some n =>
    match C.cs_subset_create_inheritance s n with
    | none => NULL
    | some he =>
      if K.DTYPE he.type ≠ K.DT_ADDRESS then NULL
      else
        let value := C.cs_subset_he_native_get s he NULL
        if value = INT_MIN then NULL
        else value
  | _, _ => NULL

/-- Get a boolean config item by name: `cs_subset_bool`. -/
def cs_subset_bool (K : Consts) (C : Collab Sub) (sub : Option Sub)
    (name : Option String) : Bool :=
  match sub, name with
  | some s, some n =>
    match C.cs_subset_create_inheritance s n with
    | none => false
    | some he =>
      if K.DTYPE he.type ≠ K.DT_BOOL then false
      else
        let value := C.cs_subset_he_native_get s he 0
        if value = INT_MIN then false
        else castBool value
  | _, _ => false

/-- Get a long config item by name: `cs_subset_long`. -/
def cs_subset_long (K : Consts) (C : Collab Sub) (sub : Option Sub)
    (name : Option String) : Int :=
  match sub, name with
  | some s, some n =>
    match C.cs_subset_create_inheritance s n with
    | none => 0
    | some he =>
      if K.DTYPE he.type ≠ K.DT_LONG then 0
      else
        let value := C.cs_subset_he_native_get s he 0
        if value = INT_MIN then 0
        else value
  | _, _ => 0

/-- Get a number config item by name: `cs_subset_number`. -/
def cs_subset_number (K : Consts) (C : Collab Sub) (sub : Option Sub)
    (name : Option String) : Int :=
  match sub, name with
  | some s, some n =>
    match C.cs_subset_create_inheritance s n with
    | none => 0
    | some he =>
      if K.DTYPE he.type ≠ K.DT_NUMBER then 0
      else
        let value := C.cs_subset_he_native_get s he 0
        if value = INT_MIN then 0
        else castShort value
  | _, _ => 0

/-- Get a quad-value config item by name: `cs_subset_quad`. -/
def cs_subset_quad (K : Consts) (C : Collab Sub) (sub : Option Sub)
    (name : Option String) : Int :=
  match sub, name with
  | some s, some n =>
    match C.cs_subset_create_inheritance s n with
    | none => K.MUTT_ABORT
    | some he =>
      if K.DTYPE he.type ≠ K.DT_QUAD then K.MUTT_ABORT
      else
        let value := C.cs_subset_he_native_get s he NULL
        if value = INT_MIN then K.MUTT_ABORT
        else castQuad value
  | _, _ => K.MUTT_ABORT

/-- Get a regex config item by name: `cs_subset_regex`. -/
def cs_subset_regex (K : Consts) (C : Collab Sub) (sub : Option Sub)
    (name : Option String) : Int :=
  match sub, name with
  | some s, some n =>
    match C.cs_subset_create_inheritance s n with
    | none => NULL
    | some he =>
      if K.DTYPE he.type ≠ K.DT_REGEX then NULL
      else
        let value := C.cs_subset_he_native_get s he NULL
        if value = INT_MIN then NULL
        else value
  | _, _ => NULL

/-- Get a string-list config item by name: `cs_subset_slist`. -/
def cs_subset_slist (K : Consts) (C : Collab Sub) (sub : Option Sub)
    (name : Option String) : Int :=
  match sub, name with
  | some s, some n =>
    match C.cs_subset_create_inheritance s n with
    | none => NULL
    | some he =>
      if K.DTYPE he.type ≠ K.DT_SLIST then NULL
      else
        let value := C.cs_subset_he_native_get s he NULL
        if value = INT_MIN then NULL
        else value
  | _, _ => NULL

/-- Get a string config item by name: `cs_subset_string`. -/
def cs_subset_string (K : Consts) (C : Collab Sub) (sub : Option Sub)
    (name : Option String) : Int :=
  match sub, name with
  | some s, some n =>
    match C.cs_subset_create_inheritance s n with
    | none => NULL
    | some he =>
      if K.DTYPE he.type ≠ K.DT_STRING then NULL
      else
        let value := C.cs_subset_he_native_get s he NULL
        if value = INT_MIN then NULL
        else value
  | _, _ => NULL

/-- Modelled from the spec: the values of `DTYPE`, of the `DT_*` tags and of
`MUTT_ABORT`, whose headers (`types.h`, `quad.h`) are not among the sources. The
spec fixes only that the eight kinds are distinct tags and that Abort is a quad
state of its own, next to no, yes, ask-no and ask-yes; the numbers are those of
the program's headers: a five-bit type mask, and Abort one below No, which is
zero. -/
def neomuttConsts : Consts where
  DTYPE := fun x => x % 32
  DT_ADDRESS := 1
  DT_BOOL := 2
  DT_LONG := 5
  DT_NUMBER := 7
  DT_QUAD := 9
  DT_REGEX := 10
  DT_SLIST := 11
  DT_STRING := 13
  MUTT_ABORT := -1

/-- A resolver over a fixed table of settings, for concrete evaluation: the
subset is a list of `(name, element)` pairs and a name resolves to the first
element stored under it. -/
def tableCollab : Collab (List (String × HashElem)) where
  cs_subset_create_inheritance := fun tbl name =>
    (tbl.find? (fun e => e.1 == name)).map (fun e => e.2)
  cs_subset_he_native_get := fun _ he _ => he.data

/-- A table with one setting of each of the eight kinds, and one of a ninth kind
(tag 12); it serves the concrete evaluations below. -/
def sampleTable : List (String × HashElem) :=
  [ ("from", ⟨1, 4096⟩), ("beep", ⟨2, 1⟩), ("pager_index_lines", ⟨5, 10⟩),
    ("wrap", ⟨7, 80⟩), ("quit", ⟨9, 3⟩), ("mask", ⟨10, 8192⟩),
    ("hidden_tags", ⟨11, 12288⟩), ("editor", ⟨13, 16384⟩), ("sort", ⟨12, 3⟩) ]

end Helpers

/-! ## The scoped store behind the accessors

The resolver and the store it reads are not part of `helpers.c`. The
definitions of this section follow sections 3, 4.1 and 4.2 of the specification. -/

namespace ConfigStore

open Helpers

/-- Modelled from the spec: the closed set of kinds of section 3 and the glossary
(the type declaring them is not among the sources). -/
inductive Kind where
  | Address | Bool | Long | Number | Quad | Regex | StringList | String
deriving DecidableEq, Repr

/-- Modelled from the spec: a `ValueSlot` of section 3, a name, a kind tag and the
native payload, one wide integer read according to the tag. -/
structure ValueSlot where
  name : String
  kind : Kind
  payload : Int
deriving DecidableEq, Repr

/-- Modelled from the spec: an entry of the Registry, the declared kind, the
default value and the optional validator of a setting. -/
structure Definition where
  name : String
  kind : Kind
  defaultValue : Int
  validator : Option (Int → Bool)

/-- Modelled from the spec: a `ScopeNode` of section 3. The parent is an index
into the arena of scopes (section 9), absent for a scope directly under the
Registry; `overrides` holds only the slots this scope has set itself. -/
structure ScopeNode where
  name : String
  parent : Option Nat
  overrides : List ValueSlot
deriving DecidableEq, Repr

/-- Modelled from the spec: the Registry together with the arena of scopes. -/
structure Store where
  definitions : List Definition
  scopes : List ScopeNode

/-- Modelled from the spec: a value handed to `setLocal`, carrying its kind. -/
structure TypedValue where
  kind : Kind
  payload : Int
deriving DecidableEq, Repr

/-- Modelled from the spec: the error taxonomy of section 7. -/
inductive StoreError where
  | UnknownName | TypeMismatch | DuplicateDefinition | ValidationFailed
deriving DecidableEq, Repr

/-- Modelled from the spec: the look-up of a name among the Registry definitions,
by exact string equality. -/
def findDefinition (defs : List Definition) (name : String) : Option Definition :=
  defs.find? (fun d => d.name == name)

/-- Modelled from the spec: `defaultSlotFor` of section 4.1, the declared default
slot of a name, or nothing when the name was never defined. -/
def defaultSlotFor (defs : List Definition) (name : String) : Option ValueSlot :=
  (findDefinition defs name).map (fun d => ⟨d.name, d.kind, d.defaultValue⟩)

/-- Modelled from the spec: `overrides[name]` of a scope. -/
def lookupOverride (node : ScopeNode) (name : String) : Option ValueSlot :=
  node.overrides.find? (fun s => s.name == name)

/-- Modelled from the spec: the walk of `resolve` (section 4.2) with a step
budget. At a scope, its own override wins; otherwise the walk moves to the
parent; past the topmost scope the Registry default answers. A spent budget or
a dangling scope index yields Unknown. -/
def resolveFrom (st : Store) (name : String) : Nat → Nat → Option ValueSlot
  | 0, _ => none
  | fuel + 1, scope =>
    match st.scopes[scope]? with
    | none => none
    | some node =>
      match lookupOverride node name with
      | some slot => some slot
      | none =>
        match node.parent with
        | some p => resolveFrom st name fuel p
        | none => defaultSlotFor st.definitions name

/-- Modelled from the spec: `resolve (scope, name)` of section 4.2. The budget is
the number of scopes, which no acyclic parent chain exceeds. -/
def resolve (st : Store) (scope : Nat) (name : String) : Option ValueSlot :=
  resolveFrom st name st.scopes.length scope

/-- Modelled from the spec: "writes or replaces" an entry of an ordered
name-to-slot mapping. -/
def putOverride : List ValueSlot → ValueSlot → List ValueSlot
  | [], slot => [slot]
  | s :: rest, slot =>
    if s.name == slot.name then slot :: rest else s :: putOverride rest slot

/-- Modelled from the spec: `setLocal (scope, name, value)` of section 4.2. An
undefined name, a value of another kind than the declared one, and a value the
declared validator rejects, fail; otherwise the override of the scope is
written or replaced, and nothing else changes. A scope index outside the arena,
of which the spec says nothing, leaves the store as it is. -/
def setLocal (st : Store) (scope : Nat) (name : String) (value : TypedValue) :
    Except StoreError Store :=
  match findDefinition st.definitions name with
  | none => .error .UnknownName
  | some d =>
    if value.kind ≠ d.kind then .error .TypeMismatch
    else
      match d.validator with
      | some accepts =>
        if accepts value.payload = false then .error .ValidationFailed
        else
          match st.scopes[scope]? with
          | none => .ok st
          | some node =>
            .ok ⟨st.definitions, st.scopes.set scope
              ⟨node.name, node.parent, putOverride node.overrides ⟨name, d.kind, value.payload⟩⟩⟩
      | none =>
        match st.scopes[scope]? with
        | none => .ok st
        | some node =>
          .ok ⟨st.definitions, st.scopes.set scope
            ⟨node.name, node.parent, putOverride node.overrides ⟨name, d.kind, value.payload⟩⟩⟩

/-- Check that every parent index in a run of scopes, the first of which has
index `i`, is below the index of its child. -/
def parentsBelow : List ScopeNode → Nat → Bool
  | [], _ => true
  | node :: rest, i =>
    (match node.parent with
     | some p => decide (p < i)
     | none => true) && parentsBelow rest (i + 1)

/-- Modelled from the spec: parent links are assigned once, at creation, to a
scope that exists already; in the arena every parent index is below the index
of its child, which rules out cycles. -/
def wellFormed (st : Store) : Bool := parentsBelow st.scopes 0

/-- Modelled from the spec: `d` is `scope` or a descendant of it, and no scope on
the way from `d` up to, and excluding, `scope` has an own override of `name`. -/
inductive InheritsFrom (st : Store) (name : String) (scope : Nat) : Nat → Prop where
  | self : InheritsFrom st name scope scope
  | step (d p : Nat) (node : ScopeNode) :
      st.scopes[d]? = some node → lookupOverride node name = none →
      node.parent = some p → InheritsFrom st name scope p →
      InheritsFrom st name scope d

/-- Modelled from the spec: two distinct scopes with the same parent. -/
def Sibling (st : Store) (scope s : Nat) : Prop :=
  s ≠ scope ∧ ∃ a b, st.scopes[scope]? = some a ∧ st.scopes[s]? = some b ∧ a.parent = b.parent

/-- The type tag of a kind. -/
def tagOf (K : Consts) : Kind → Nat
  | .Address => K.DT_ADDRESS
  | .Bool => K.DT_BOOL
  | .Long => K.DT_LONG
  | .Number => K.DT_NUMBER
  | .Quad => K.DT_QUAD
  | .Regex => K.DT_REGEX
  | .StringList => K.DT_SLIST
  | .String => K.DT_STRING

/-- A config subset as the accessors receive it: a scope of a store. -/
structure SubsetRef where
  store : Store
  scope : Nat

/-- Modelled from the spec: the two collaborators of the accessors over the store.
The resolver is `resolve`, handing out the slot as a hash element tagged with
the slot kind; the native-get step reads the payload of that element. -/
def storeCollab (K : Consts) : Collab SubsetRef where
  cs_subset_create_inheritance := fun sub name =>
    (resolve sub.store sub.scope name).map (fun slot => ⟨tagOf K slot.kind, slot.payload⟩)
  cs_subset_he_native_get := fun _ he _ => he.data

/-- The accessor of a kind, `getK (scope, name)` in the notation of the spec, on
a scope of a store; the result of the Bool accessor is given as 0 or 1. -/
def getK (K : Consts) (k : Kind) (st : Store) (scope : Nat) (name : String) : Int :=
  match k with
  | .Address => cs_subset_address K (storeCollab K) (some ⟨st, scope⟩) (some name)
  | .Bool => if cs_subset_bool K (storeCollab K) (some ⟨st, scope⟩) (some name) then 1 else 0
  | .Long => cs_subset_long K (storeCollab K) (some ⟨st, scope⟩) (some name)
  | .Number => cs_subset_number K (storeCollab K) (some ⟨st, scope⟩) (some name)
  | .Quad => cs_subset_quad K (storeCollab K) (some ⟨st, scope⟩) (some name)
  | .Regex => cs_subset_regex K (storeCollab K) (some ⟨st, scope⟩) (some name)
  | .StringList => cs_subset_slist K (storeCollab K) (some ⟨st, scope⟩) (some name)
  | .String => cs_subset_string K (storeCollab K) (some ⟨st, scope⟩) (some name)

/-- Modelled from the spec: a payload `v` is a value of kind `k` when it is
representable in the native type of the kind: 0 or 1 for Bool, a `short` for
Number, an `int` for Quad, any wide integer for Long and the reference kinds. -/
def fitsKind : Kind → Int → Prop
  | .Bool, v => v = 0 ∨ v = 1
  | .Number, v => -32768 ≤ v ∧ v ≤ 32767
  | .Quad, v => -2147483648 ≤ v ∧ v ≤ 2147483647
  | _, _ => True

/-- The value the accessor of kind `k` returns on the scope `reader` after
`setLocal (scope, name, value)` has succeeded; nothing when it fails. -/
def getAfterSet (K : Consts) (st : Store) (scope : Nat) (name : String) (value : TypedValue)
    (k : Kind) (reader : Nat) : Option Int :=
  match setLocal st scope name value with
  | .ok st2 => some (getK K k st2 reader name)
  | .error _ => none

/-- A store with the Long-kind setting `pager_index_lines` of default 0 and four
scopes: `A` under the Registry, `B` and `D` under `A`, `C` under `B`; only `D`
has an override, the value 3. -/
def sampleStore : Store :=
  ⟨[⟨"pager_index_lines", .Long, 0, none⟩],
   [⟨"A", none, []⟩, ⟨"B", some 0, []⟩, ⟨"C", some 1, []⟩,
    ⟨"D", some 0, [⟨"pager_index_lines", .Long, 3⟩]⟩]⟩

/-- A store with the same setting and a chain of three scopes, `C` under `B` under
`A`, in which the middle scope `B` overrides the setting with 5. -/
def shadowedStore : Store :=
  ⟨[⟨"pager_index_lines", .Long, 0, none⟩],
   [⟨"A", none, []⟩, ⟨"B", some 0, [⟨"pager_index_lines", .Long, 5⟩]⟩, ⟨"C", some 1, []⟩]⟩

/-- A store with one scope, in which the validator of the setting accepts only
values that are not negative. -/
def validatedStore : Store :=
  ⟨[⟨"pager_index_lines", .Long, 0, some (fun v => decide (0 ≤ v))⟩], [⟨"A", none, []⟩]⟩

end ConfigStore

/-! ## The address list of the test `test_mutt_addrlist_free_one`

Only the test of `mutt_addrlist_free_one` is among the sources. -/

namespace AddressList

/-- Modelled from the spec: an `Address` node of an address list, which the spec
leaves to a collaborator. A node has an identity, the location `ptr` it was
allocated at, next to the `personal` and `mailbox` strings the test reads.
Two nodes of equal content at different locations are different nodes. -/
structure Address where
  ptr : Nat
  personal : Option String
  mailbox : Option String
deriving DecidableEq, Repr

/-- Modelled from the spec: the removal of the node located at `p` from the queue
(the `TAILQ_REMOVE` a free-one operation performs), other nodes kept in place. -/
def unlink (p : Nat) : List Address → List Address
  | [] => []
  | x :: rest => if x.ptr = p then rest else x :: unlink p rest

/-- Modelled from the spec: `mutt_addrlist_free_one (al, a)`, whose body is not
among the sources. With a null list or a null address nothing happens, as the
first two blocks of the test require; otherwise the node `a` is taken out of
the list and freed. The result is the list after the call. -/
def mutt_addrlist_free_one (al : Option (List Address)) (a : Option Nat) :
    Option (List Address) :=
  match al, a with
  | some l, some p => some (unlink p l)
  | _, _ => al

/-- Modelled from the spec: `mutt_addrlist_append (al, a)`, which puts the node at
the tail of the list. -/
def mutt_addrlist_append (al : List Address) (a : Address) : List Address :=
  al ++ [a]

/-- Modelled from the spec: the six addresses the test string
`some_addresses` parses to, in order, allocated at `base`, ..., `base + 5`. -/
def someAddresses (base : Nat) : List Address :=
  [ ⟨base, none, some "john@doe.org"⟩,
    ⟨base + 1, none, some "test@example.com"⟩,
    ⟨base + 2, some "John Doe", some "john@doe.org"⟩,
    ⟨base + 3, none, some "foo@bar.baz"⟩,
    ⟨base + 4, some "Another", some "john@doe.org"⟩,
    ⟨base + 5, none, some "foo@baz.info"⟩ ]

/-- Modelled from the spec: `mutt_addrlist_parse (al, some_addresses)` of the test,
which appends the parsed addresses to the list and returns their number. -/
def mutt_addrlist_parse (al : List Address) (base : Nat) : List Address × Nat :=
  (al ++ someAddresses base, (someAddresses base).length)

/-- The node the test allocates with `mutt_addr_new` and fills in. -/
def testAddress : Address := ⟨200, some "Another", some "john@doe.org"⟩

/-- The list of the third block of the test, just before the call of
`mutt_addrlist_free_one`. -/
def testList : List Address :=
  (mutt_addrlist_parse (mutt_addrlist_append (mutt_addrlist_parse [] 100).1 testAddress) 300).1

end AddressList

/-! ## Properties of the accessors -/

namespace Helpers

variable {Sub : Type}

theorem narrow_of_fits (w : Nat) (v : Int) (hlo : -(2 ^ w) ≤ v) (hhi : v < 2 ^ w) :
    narrow w v = v := by
  have hp : (0 : Int) < 2 ^ w := by positivity
  have h2 : (2 : Int) ^ (w + 1) = 2 * 2 ^ w := by ring
  unfold narrow
  simp only [h2]
  by_cases hv : 0 ≤ v
  · have : v % (2 * 2 ^ w) = v := Int.emod_eq_of_lt hv (by linarith)
    rw [this, if_pos hhi]
  · have hv2 : v < 0 := not_le.mp hv
    have : v % (2 * 2 ^ w) = v + 2 * 2 ^ w := by
      have h := Int.add_mul_emod_self (a := v) (b := 1) (c := 2 * 2 ^ w)
      rw [one_mul] at h
      rw [← h]
      exact Int.emod_eq_of_lt (by linarith) (by linarith)
    rw [this, if_neg (by linarith)]
    ring

theorem narrow_range (w : Nat) (v : Int) : -(2 ^ w) ≤ narrow w v ∧ narrow w v < 2 ^ w := by
  have hp : (0 : Int) < 2 ^ w := by positivity
  have h2 : (2 : Int) ^ (w + 1) = 2 * 2 ^ w := by ring
  have hm0 : 0 ≤ v % (2 * 2 ^ w) := Int.emod_nonneg _ (by linarith)
  have hm1 : v % (2 * 2 ^ w) < 2 * 2 ^ w := Int.emod_lt_of_pos _ (by linarith)
  unfold narrow
  simp only [h2]
  split_ifs with h
  · exact ⟨by linarith, h⟩
  · exact ⟨by linarith, by linarith⟩

theorem narrow_congr (w : Nat) (v : Int) : (2 ^ (w + 1) : Int) ∣ v - narrow w v := by
  unfold narrow
  simp only
  split_ifs with h
  · exact Int.dvd_sub_of_emod_eq rfl
  · have h1 : (2 ^ (w + 1) : Int) ∣ v - v % 2 ^ (w + 1) := Int.dvd_sub_of_emod_eq rfl
    have : v - (v % 2 ^ (w + 1) - 2 ^ (w + 1)) = (v - v % 2 ^ (w + 1)) + 2 ^ (w + 1) := by ring
    rw [this]
    exact dvd_add h1 (dvd_refl _)

/-- C1. With a null `sub` or a null `name`, each of the eight accessors returns
the error sentinel of its kind (NULL, false, 0, 0, MUTT_ABORT, NULL, NULL,
NULL), whatever the resolver and the native-get step of `C` are. -/
theorem null_input_returns_sentinel (K : Consts) (C : Collab Sub) (sub : Option Sub)
    (name : Option String) (h : sub = none ∨ name = none) :
    cs_subset_address K C sub name = NULL ∧
    cs_subset_bool K C sub name = false ∧
    cs_subset_long K C sub name = 0 ∧
    cs_subset_number K C sub name = 0 ∧
    cs_subset_quad K C sub name = K.MUTT_ABORT ∧
    cs_subset_regex K C sub name = NULL ∧
    cs_subset_slist K C sub name = NULL ∧
    cs_subset_string K C sub name = NULL := by
  rcases h with h | h
  · subst h
    simp [cs_subset_address, cs_subset_bool, cs_subset_long, cs_subset_number,
      cs_subset_quad, cs_subset_regex, cs_subset_slist, cs_subset_string]
  · subst h
    cases sub <;>
    simp [cs_subset_address, cs_subset_bool, cs_subset_long, cs_subset_number,
      cs_subset_quad, cs_subset_regex, cs_subset_slist, cs_subset_string]

/-- Instance of C1: a null `sub` with a name that would resolve, read through the
Bool accessor. -/
theorem null_input_returns_sentinel_witness :
    ((none : Option (List (String × HashElem))) = none ∨ some "beep" = none) ∧
    cs_subset_bool neomuttConsts tableCollab none (some "beep") = false ∧
    cs_subset_quad neomuttConsts tableCollab none (some "beep") = -1 :=
  ⟨Or.inl rfl,
   (null_input_returns_sentinel neomuttConsts tableCollab none (some "beep") (Or.inl rfl)).2.1,
   (null_input_returns_sentinel neomuttConsts tableCollab none (some "beep")
      (Or.inl rfl)).2.2.2.2.1⟩

/-- C2. When the name resolves to an element whose kind, `DTYPE (he->type)`, is
not the kind of the accessor, the accessor returns the error sentinel of its
kind, whatever the native-get step of `C` would yield; so the Bool accessor on
a Long-kind setting of value 10 returns false. -/
theorem kind_mismatch_returns_sentinel (K : Consts) (C : Collab Sub) (s : Sub) (n : String)
    (he : HashElem) (hres : C.cs_subset_create_inheritance s n = some he) :
    (K.DTYPE he.type ≠ K.DT_ADDRESS → cs_subset_address K C (some s) (some n) = NULL) ∧
    (K.DTYPE he.type ≠ K.DT_BOOL → cs_subset_bool K C (some s) (some n) = false) ∧
    (K.DTYPE he.type ≠ K.DT_LONG → cs_subset_long K C (some s) (some n) = 0) ∧
    (K.DTYPE he.type ≠ K.DT_NUMBER → cs_subset_number K C (some s) (some n) = 0) ∧
    (K.DTYPE he.type ≠ K.DT_QUAD → cs_subset_quad K C (some s) (some n) = K.MUTT_ABORT) ∧
    (K.DTYPE he.type ≠ K.DT_REGEX → cs_subset_regex K C (some s) (some n) = NULL) ∧
    (K.DTYPE he.type ≠ K.DT_SLIST → cs_subset_slist K C (some s) (some n) = NULL) ∧
    (K.DTYPE he.type ≠ K.DT_STRING → cs_subset_string K C (some s) (some n) = NULL) ∧
    (K.DT_LONG ≠ K.DT_BOOL → K.DTYPE he.type = K.DT_LONG →
      C.cs_subset_he_native_get s he 0 = 10 → cs_subset_bool K C (some s) (some n) = false) := by
  refine ⟨?_, ?_, ?_, ?_, ?_, ?_, ?_, ?_, ?_⟩
  · intro h; simp [cs_subset_address, hres, h]
  · intro h; simp [cs_subset_bool, hres, h]
  · intro h; simp [cs_subset_long, hres, h]
  · intro h; simp [cs_subset_number, hres, h]
  · intro h; simp [cs_subset_quad, hres, h]
  · intro h; simp [cs_subset_regex, hres, h]
  · intro h; simp [cs_subset_slist, hres, h]
  · intro h; simp [cs_subset_string, hres, h]
  · intro hd hk _
    have h : K.DTYPE he.type ≠ K.DT_BOOL := by rw [hk]; exact hd
    simp [cs_subset_bool, hres, h]

/-- Instance of C2: the setting `sort`, of a ninth kind, read through all eight
accessors, and the Long-kind setting `pager_index_lines`, of value 10, read
through the Bool accessor. -/
theorem kind_mismatch_returns_sentinel_witness :
    tableCollab.cs_subset_create_inheritance sampleTable "sort" = some ⟨12, 3⟩ ∧
    cs_subset_address neomuttConsts tableCollab (some sampleTable) (some "sort") = 0 ∧
    cs_subset_bool neomuttConsts tableCollab (some sampleTable) (some "sort") = false ∧
    cs_subset_long neomuttConsts tableCollab (some sampleTable) (some "sort") = 0 ∧
    cs_subset_number neomuttConsts tableCollab (some sampleTable) (some "sort") = 0 ∧
    cs_subset_quad neomuttConsts tableCollab (some sampleTable) (some "sort") = -1 ∧
    cs_subset_regex neomuttConsts tableCollab (some sampleTable) (some "sort") = 0 ∧
    cs_subset_slist neomuttConsts tableCollab (some sampleTable) (some "sort") = 0 ∧
    cs_subset_string neomuttConsts tableCollab (some sampleTable) (some "sort") = 0 ∧
    tableCollab.cs_subset_create_inheritance sampleTable "pager_index_lines" = some ⟨5, 10⟩ ∧
    cs_subset_bool neomuttConsts tableCollab (some sampleTable) (some "pager_index_lines")
      = false :=
  have hs : tableCollab.cs_subset_create_inheritance sampleTable "sort" = some ⟨12, 3⟩ := by
    decide
  have hp : tableCollab.cs_subset_create_inheritance sampleTable "pager_index_lines"
      = some ⟨5, 10⟩ := by decide
  have t := kind_mismatch_returns_sentinel neomuttConsts tableCollab sampleTable "sort" ⟨12, 3⟩ hs
  ⟨hs, t.1 (by decide), t.2.1 (by decide), t.2.2.1 (by decide), t.2.2.2.1 (by decide),
   t.2.2.2.2.1 (by decide), t.2.2.2.2.2.1 (by decide), t.2.2.2.2.2.2.1 (by decide),
   t.2.2.2.2.2.2.2.1 (by decide), hp,
   (kind_mismatch_returns_sentinel neomuttConsts tableCollab sampleTable "pager_index_lines"
      ⟨5, 10⟩ hp).2.2.2.2.2.2.2.2 (by decide) (by decide) (by decide)⟩

/-- C3, as stated, fails. A Long-kind setting resolves, its native payload is the
long value INT_MIN, and `cs_subset_long` returns 0, not that payload. And a
Number-kind setting of native payload 70000 is read by `cs_subset_number` as
4464, the payload narrowed to a `short`, not the payload itself. -/
theorem matching_kind_payload_not_returned :
    tableCollab.cs_subset_create_inheritance [("x", ⟨5, INT_MIN⟩)] "x" = some ⟨5, INT_MIN⟩ ∧
    neomuttConsts.DTYPE 5 = neomuttConsts.DT_LONG ∧
    tableCollab.cs_subset_he_native_get [("x", ⟨5, INT_MIN⟩)] ⟨5, INT_MIN⟩ 0 = -2147483648 ∧
    cs_subset_long neomuttConsts tableCollab (some [("x", ⟨5, INT_MIN⟩)]) (some "x") = 0 ∧
    cs_subset_long neomuttConsts tableCollab (some [("x", ⟨5, INT_MIN⟩)]) (some "x")
      ≠ -2147483648 ∧
    tableCollab.cs_subset_create_inheritance [("w", ⟨7, 70000⟩)] "w" = some ⟨7, 70000⟩ ∧
    neomuttConsts.DTYPE 7 = neomuttConsts.DT_NUMBER ∧
    tableCollab.cs_subset_he_native_get [("w", ⟨7, 70000⟩)] ⟨7, 70000⟩ 0 = 70000 ∧
    cs_subset_number neomuttConsts tableCollab (some [("w", ⟨7, 70000⟩)]) (some "w") = 4464 := by
  decide

/-- C3, amended. When the name resolves to an element of the kind of the accessor
and the native payload `v` is not INT_MIN, the accessor returns `v` converted to
its return type: `v` itself for Address, Long, Regex, StringList and String,
`v ≠ 0` for Bool, `v` narrowed to a `short` for Number and to an `int` for Quad,
which is `v` itself when `v` fits; so `cs_subset_long` returns every `v` other
than INT_MIN. -/
theorem matching_kind_returns_payload (K : Consts) (C : Collab Sub) (s : Sub) (n : String)
    (he : HashElem) (v : Int) (hres : C.cs_subset_create_inheritance s n = some he)
    (hv : C.cs_subset_he_native_get s he 0 = v) (hne : v ≠ INT_MIN) :
    (K.DTYPE he.type = K.DT_ADDRESS → cs_subset_address K C (some s) (some n) = v) ∧
    (K.DTYPE he.type = K.DT_BOOL →
      cs_subset_bool K C (some s) (some n) = decide (v ≠ 0) ∧
      (v = 0 → cs_subset_bool K C (some s) (some n) = false) ∧
      (v = 1 → cs_subset_bool K C (some s) (some n) = true)) ∧
    (K.DTYPE he.type = K.DT_LONG → cs_subset_long K C (some s) (some n) = v) ∧
    (K.DTYPE he.type = K.DT_NUMBER →
      cs_subset_number K C (some s) (some n) = castShort v ∧
      (-32768 ≤ v → v ≤ 32767 → cs_subset_number K C (some s) (some n) = v)) ∧
    (K.DTYPE he.type = K.DT_QUAD →
      cs_subset_quad K C (some s) (some n) = castQuad v ∧
      (-2147483648 ≤ v → v ≤ 2147483647 → cs_subset_quad K C (some s) (some n) = v)) ∧
    (K.DTYPE he.type = K.DT_REGEX → cs_subset_regex K C (some s) (some n) = v) ∧
    (K.DTYPE he.type = K.DT_SLIST → cs_subset_slist K C (some s) (some n) = v) ∧
    (K.DTYPE he.type = K.DT_STRING → cs_subset_string K C (some s) (some n) = v) := by
  have hv0 : C.cs_subset_he_native_get s he NULL = v := hv
  refine ⟨?_, ?_, ?_, ?_, ?_, ?_, ?_, ?_⟩
  · intro h; simp [cs_subset_address, hres, h, hv0, hne]
  · intro h
    have hb : cs_subset_bool K C (some s) (some n) = decide (v ≠ 0) := by
      simp [cs_subset_bool, hres, h, hv, hne, castBool]
    refine ⟨hb, ?_, ?_⟩
    · intro h0; rw [hb, h0]; decide
    · intro h1; rw [hb, h1]; decide
  · intro h; simp [cs_subset_long, hres, h, hv, hne]
  · intro h
    have hb : cs_subset_number K C (some s) (some n) = castShort v := by
      simp [cs_subset_number, hres, h, hv, hne]
    refine ⟨hb, ?_⟩
    intro hlo hhi
    rw [hb]
    exact narrow_of_fits 15 v (by norm_num; exact hlo) (by norm_num; omega)
  · intro h
    have hb : cs_subset_quad K C (some s) (some n) = castQuad v := by
      simp [cs_subset_quad, hres, h, hv0, hne]
    refine ⟨hb, ?_⟩
    intro hlo hhi
    rw [hb]
    exact narrow_of_fits 31 v (by norm_num; exact hlo) (by norm_num; omega)
  · intro h; simp [cs_subset_regex, hres, h, hv0, hne]
  · intro h; simp [cs_subset_slist, hres, h, hv0, hne]
  · intro h; simp [cs_subset_string, hres, h, hv0, hne]

/-- Instance of C3, amended: the Long-kind setting `pager_index_lines` of value 10
is read as 10, and the String-kind setting `editor` as its pointer. -/
theorem matching_kind_returns_payload_witness :
    tableCollab.cs_subset_create_inheritance sampleTable "pager_index_lines" = some ⟨5, 10⟩ ∧
    tableCollab.cs_subset_he_native_get sampleTable ⟨5, 10⟩ 0 = 10 ∧
    (10 : Int) ≠ INT_MIN ∧
    cs_subset_long neomuttConsts tableCollab (some sampleTable) (some "pager_index_lines") = 10 ∧
    cs_subset_string neomuttConsts tableCollab (some sampleTable) (some "editor") = 16384 :=
  ⟨by decide, rfl, by decide,
   (matching_kind_returns_payload neomuttConsts tableCollab sampleTable "pager_index_lines"
      ⟨5, 10⟩ 10 (by decide) rfl (by decide)).2.2.1 (by decide),
   (matching_kind_returns_payload neomuttConsts tableCollab sampleTable "editor"
      ⟨13, 16384⟩ 16384 (by decide) rfl (by decide)).2.2.2.2.2.2.2 (by decide)⟩

/-- C4. When the resolver yields no element for the name, each accessor returns
the error sentinel of its kind; the native-get step `g` is arbitrary, so the
result does not come from it. -/
theorem unknown_name_returns_sentinel (K : Consts)
    (r : Sub → String → Option HashElem) (g : Sub → HashElem → Int → Int)
    (s : Sub) (n : String) (hres : r s n = none) :
    cs_subset_address K ⟨r, g⟩ (some s) (some n) = NULL ∧
    cs_subset_bool K ⟨r, g⟩ (some s) (some n) = false ∧
    cs_subset_long K ⟨r, g⟩ (some s) (some n) = 0 ∧
    cs_subset_number K ⟨r, g⟩ (some s) (some n) = 0 ∧
    cs_subset_quad K ⟨r, g⟩ (some s) (some n) = K.MUTT_ABORT ∧
    cs_subset_regex K ⟨r, g⟩ (some s) (some n) = NULL ∧
    cs_subset_slist K ⟨r, g⟩ (some s) (some n) = NULL ∧
    cs_subset_string K ⟨r, g⟩ (some s) (some n) = NULL := by
  simp [cs_subset_address, cs_subset_bool, cs_subset_long, cs_subset_number,
    cs_subset_quad, cs_subset_regex, cs_subset_slist, cs_subset_string, hres]

/-- Instance of C4: the name `nosuch` is not in the table; the native-get step
used here would answer 7 for every element. -/
theorem unknown_name_returns_sentinel_witness :
    tableCollab.cs_subset_create_inheritance sampleTable "nosuch" = none ∧
    cs_subset_address neomuttConsts
      ⟨tableCollab.cs_subset_create_inheritance, fun _ _ _ => 7⟩
      (some sampleTable) (some "nosuch") = 0 ∧
    cs_subset_long neomuttConsts
      ⟨tableCollab.cs_subset_create_inheritance, fun _ _ _ => 7⟩
      (some sampleTable) (some "nosuch") = 0 :=
  have t := unknown_name_returns_sentinel neomuttConsts
    tableCollab.cs_subset_create_inheritance (fun _ _ _ => 7) sampleTable "nosuch" (by decide)
  ⟨by decide, t.1, t.2.2.1⟩

/-- On each of its five error paths `cs_subset_quad` returns `MUTT_ABORT`. -/
theorem cs_subset_quad_error_paths (K : Consts) (C : Collab Sub) (s : Sub) (n : String) :
    (∀ name, cs_subset_quad K C none name = K.MUTT_ABORT) ∧
    cs_subset_quad K C (some s) none = K.MUTT_ABORT ∧
    (C.cs_subset_create_inheritance s n = none →
      cs_subset_quad K C (some s) (some n) = K.MUTT_ABORT) ∧
    (∀ he, C.cs_subset_create_inheritance s n = some he → K.DTYPE he.type ≠ K.DT_QUAD →
      cs_subset_quad K C (some s) (some n) = K.MUTT_ABORT) ∧
    (∀ he, C.cs_subset_create_inheritance s n = some he →
      C.cs_subset_he_native_get s he NULL = INT_MIN →
      cs_subset_quad K C (some s) (some n) = K.MUTT_ABORT) := by
  refine ⟨?_, ?_, ?_, ?_, ?_⟩
  · intro name; simp [cs_subset_quad]
  · simp [cs_subset_quad]
  · intro h; simp [cs_subset_quad, h]
  · intro he h hk; simp [cs_subset_quad, h, hk]
  · intro he h hv; simp [cs_subset_quad, h, hv]

/-- C5, evaluated. With `MUTT_ABORT` at its value -1, `cs_subset_quad` returns -1,
not the 0 of its documentation comment, on each of its five error paths: a null
`sub`, a null `name`, an unknown name, a setting of another kind, and a failed
native-get step. -/
theorem cs_subset_quad_error_is_not_zero :
    cs_subset_quad neomuttConsts tableCollab none (some "quit") = -1 ∧
    cs_subset_quad neomuttConsts tableCollab (some sampleTable) none = -1 ∧
    cs_subset_quad neomuttConsts tableCollab (some sampleTable) (some "nosuch") = -1 ∧
    cs_subset_quad neomuttConsts tableCollab (some sampleTable) (some "wrap") = -1 ∧
    cs_subset_quad neomuttConsts tableCollab (some [("quit", ⟨9, INT_MIN⟩)]) (some "quit") = -1 ∧
    cs_subset_quad neomuttConsts tableCollab none (some "quit") ≠ 0 := by
  decide

/-- C8. When the native-get step yields INT_MIN for a resolved element of the kind
of the accessor, the accessor returns the error sentinel of its kind; a
Long-kind setting whose native value is INT_MIN is thus read as 0, the very
result of a look-up that fails to resolve the name. -/
theorem int_min_payload_returns_sentinel (K : Consts) (C : Collab Sub) (s : Sub) (n : String)
    (he : HashElem) (hres : C.cs_subset_create_inheritance s n = some he)
    (hv : C.cs_subset_he_native_get s he 0 = INT_MIN) :
    (K.DTYPE he.type = K.DT_ADDRESS → cs_subset_address K C (some s) (some n) = NULL) ∧
    (K.DTYPE he.type = K.DT_BOOL → cs_subset_bool K C (some s) (some n) = false) ∧
    (K.DTYPE he.type = K.DT_LONG → cs_subset_long K C (some s) (some n) = 0) ∧
    (K.DTYPE he.type = K.DT_NUMBER → cs_subset_number K C (some s) (some n) = 0) ∧
    (K.DTYPE he.type = K.DT_QUAD → cs_subset_quad K C (some s) (some n) = K.MUTT_ABORT) ∧
    (K.DTYPE he.type = K.DT_REGEX → cs_subset_regex K C (some s) (some n) = NULL) ∧
    (K.DTYPE he.type = K.DT_SLIST → cs_subset_slist K C (some s) (some n) = NULL) ∧
    (K.DTYPE he.type = K.DT_STRING → cs_subset_string K C (some s) (some n) = NULL) ∧
    (K.DTYPE he.type = K.DT_LONG →
      ∀ r : Sub → String → Option HashElem, r s n = none →
        cs_subset_long K C (some s) (some n)
          = cs_subset_long K ⟨r, C.cs_subset_he_native_get⟩ (some s) (some n)) := by
  have hv0 : C.cs_subset_he_native_get s he NULL = INT_MIN := hv
  refine ⟨?_, ?_, ?_, ?_, ?_, ?_, ?_, ?_, ?_⟩
  · intro h; simp [cs_subset_address, hres, h, hv0]
  · intro h; simp [cs_subset_bool, hres, h, hv]
  · intro h; simp [cs_subset_long, hres, h, hv]
  · intro h; simp [cs_subset_number, hres, h, hv]
  · intro h; simp [cs_subset_quad, hres, h, hv0]
  · intro h; simp [cs_subset_regex, hres, h, hv0]
  · intro h; simp [cs_subset_slist, hres, h, hv0]
  · intro h; simp [cs_subset_string, hres, h, hv0]
  · intro h r hr; simp [cs_subset_long, hres, h, hv, hr]

/-- Instance of C8: a Long-kind setting and a Bool-kind setting whose native value
is INT_MIN. -/
theorem int_min_payload_returns_sentinel_witness :
    tableCollab.cs_subset_create_inheritance [("x", ⟨5, INT_MIN⟩)] "x" = some ⟨5, INT_MIN⟩ ∧
    tableCollab.cs_subset_he_native_get [("x", ⟨5, INT_MIN⟩)] ⟨5, INT_MIN⟩ 0 = INT_MIN ∧
    cs_subset_long neomuttConsts tableCollab (some [("x", ⟨5, INT_MIN⟩)]) (some "x") = 0 ∧
    cs_subset_bool neomuttConsts tableCollab (some [("b", ⟨2, INT_MIN⟩)]) (some "b") = false :=
  ⟨by decide, rfl,
   (int_min_payload_returns_sentinel neomuttConsts tableCollab [("x", ⟨5, INT_MIN⟩)] "x"
      ⟨5, INT_MIN⟩ (by decide) rfl).2.2.1 (by decide),
   (int_min_payload_returns_sentinel neomuttConsts tableCollab [("b", ⟨2, INT_MIN⟩)] "b"
      ⟨2, INT_MIN⟩ (by decide) rfl).2.1 (by decide)⟩

/-- C9. For a resolved Number-kind element of native value `v`: when `v` lies in
[-32768, 32767], `cs_subset_number` returns `v`, and `v` is not INT_MIN, so the
error check does not fire; when `v` lies outside and is not INT_MIN, the result
is `v` wrapped to 16 bits, that is the residue of `v` modulo 65536 read as two's
complement: it lies in [-32768, 32767], is congruent to `v` modulo 65536, and
differs from `v`. -/
theorem number_narrowing (K : Consts) (C : Collab Sub) (s : Sub) (n : String)
    (he : HashElem) (v : Int) (hres : C.cs_subset_create_inheritance s n = some he)
    (hk : K.DTYPE he.type = K.DT_NUMBER) (hv : C.cs_subset_he_native_get s he 0 = v) :
    (-32768 ≤ v → v ≤ 32767 →
      cs_subset_number K C (some s) (some n) = v ∧ v ≠ INT_MIN) ∧
    ((v < -32768 ∨ 32767 < v) → v ≠ INT_MIN →
      cs_subset_number K C (some s) (some n)
        = (if v % 65536 < 32768 then v % 65536 else v % 65536 - 65536) ∧
      -32768 ≤ cs_subset_number K C (some s) (some n) ∧
      cs_subset_number K C (some s) (some n) ≤ 32767 ∧
      (65536 : Int) ∣ v - cs_subset_number K C (some s) (some n) ∧
      cs_subset_number K C (some s) (some n) ≠ v) := by
  constructor
  · intro hlo hhi
    have hne : v ≠ INT_MIN := by unfold INT_MIN; omega
    refine ⟨?_, hne⟩
    have hb : cs_subset_number K C (some s) (some n) = castShort v := by
      simp [cs_subset_number, hres, hk, hv, hne]
    rw [hb]
    exact narrow_of_fits 15 v (by norm_num; exact hlo) (by norm_num; omega)
  · intro hout hne
    have hb : cs_subset_number K C (some s) (some n) = castShort v := by
      simp [cs_subset_number, hres, hk, hv, hne]
    have hr := narrow_range 15 v
    have hc := narrow_congr 15 v
    norm_num at hr hc
    rw [hb]
    refine ⟨?_, hr.1, by have := hr.2; unfold castShort; omega, hc, ?_⟩
    · unfold castShort narrow; norm_num
    · intro he2
      unfold castShort at he2
      rw [he2] at hr
      omega

/-- Instance of C9: the Number-kind setting `wrap` of value 80, and a Number-kind
setting of value 70000, which is read as 4464. -/
theorem number_narrowing_witness :
    tableCollab.cs_subset_create_inheritance sampleTable "wrap" = some ⟨7, 80⟩ ∧
    neomuttConsts.DTYPE 7 = neomuttConsts.DT_NUMBER ∧
    cs_subset_number neomuttConsts tableCollab (some sampleTable) (some "wrap") = 80 ∧
    cs_subset_number neomuttConsts tableCollab (some [("w", ⟨7, 70000⟩)]) (some "w")
      = (if (70000 : Int) % 65536 < 32768 then 70000 % 65536 else 70000 % 65536 - 65536) ∧
    cs_subset_number neomuttConsts tableCollab (some [("w", ⟨7, 70000⟩)]) (some "w") = 4464 :=
  ⟨by decide, rfl,
   ((number_narrowing neomuttConsts tableCollab sampleTable "wrap" ⟨7, 80⟩ 80
      (by decide) rfl rfl).1 (by decide) (by decide)).1,
   ((number_narrowing neomuttConsts tableCollab [("w", ⟨7, 70000⟩)] "w" ⟨7, 70000⟩ 70000
      (by decide) rfl rfl).2 (Or.inr (by decide)) (by decide)).1,
   by decide⟩

/-- C10. For a resolved Bool-kind element of native value `v`, `cs_subset_bool`
returns true exactly when `v` is neither 0 nor INT_MIN; for `v` among 0 and 1 the
result is the stored boolean. -/
theorem bool_true_iff (K : Consts) (C : Collab Sub) (s : Sub) (n : String)
    (he : HashElem) (v : Int) (hres : C.cs_subset_create_inheritance s n = some he)
    (hk : K.DTYPE he.type = K.DT_BOOL) (hv : C.cs_subset_he_native_get s he 0 = v) :
    (cs_subset_bool K C (some s) (some n) = true ↔ (v ≠ 0 ∧ v ≠ INT_MIN)) ∧
    (v = 0 → cs_subset_bool K C (some s) (some n) = false) ∧
    (v = 1 → cs_subset_bool K C (some s) (some n) = true) := by
  have hb : cs_subset_bool K C (some s) (some n)
      = if v = INT_MIN then false else decide (v ≠ 0) := by
    simp [cs_subset_bool, hres, hk, hv, castBool]
  refine ⟨?_, ?_, ?_⟩
  · rw [hb]
    by_cases h : v = INT_MIN
    · simp [h]
    · simp [h]
  · intro h0; rw [hb, h0]; decide
  · intro h1; rw [hb, h1]; decide

/-- Instance of C10: the Bool-kind setting `beep` of value 1 reads as true, one of
value 0 as false. -/
theorem bool_true_iff_witness :
    tableCollab.cs_subset_create_inheritance sampleTable "beep" = some ⟨2, 1⟩ ∧
    neomuttConsts.DTYPE 2 = neomuttConsts.DT_BOOL ∧
    cs_subset_bool neomuttConsts tableCollab (some sampleTable) (some "beep") = true ∧
    cs_subset_bool neomuttConsts tableCollab (some [("b", ⟨2, 0⟩)]) (some "b") = false :=
  ⟨by decide, rfl,
   (bool_true_iff neomuttConsts tableCollab sampleTable "beep" ⟨2, 1⟩ 1
      (by decide) rfl rfl).2.2 rfl,
   (bool_true_iff neomuttConsts tableCollab [("b", ⟨2, 0⟩)] "b" ⟨2, 0⟩ 0
      (by decide) rfl rfl).2.1 rfl⟩

end Helpers

/-! ## The address list -/

namespace AddressList

theorem unlink_split (al : List Address) (a : Address)
    (hnd : (al.map Address.ptr).Nodup) (ha : a ∈ al) :
    ∃ l1 l2, al = l1 ++ a :: l2 ∧ unlink a.ptr al = l1 ++ l2 := by
  induction al with
  | nil => cases ha
  | cons x rest ih =>
    rw [List.map_cons, List.nodup_cons] at hnd
    by_cases hx : x.ptr = a.ptr
    · have hxa : a = x := by
        rcases List.mem_cons.mp ha with h | h
        · exact h
        · exact absurd (hx ▸ List.mem_map_of_mem Address.ptr h) hnd.1
      subst hxa
      exact ⟨[], rest, rfl, by simp [unlink]⟩
    · have har : a ∈ rest := by
        rcases List.mem_cons.mp ha with h | h
        · exact absurd (h ▸ rfl) hx
        · exact h
      obtain ⟨l1, l2, h1, h2⟩ := ih hnd.2 har
      exact ⟨x :: l1, l2, by rw [h1]; rfl, by simp [unlink, hx, h2]⟩

/-- C6. For a list whose nodes are pairwise distinct allocations and a node `a` of
it, `mutt_addrlist_free_one` removes that node and nothing else: the list splits
as `l1 ++ a :: l2`, the result is `l1 ++ l2`, so every other node stays, in its
original relative order, and `a` is gone. Nodes of equal content at other
locations are other nodes and stay. -/
theorem free_one_removes_exactly_that_node (al : List Address) (a : Address)
    (hnd : (al.map Address.ptr).Nodup) (ha : a ∈ al) :
    ∃ l1 l2, al = l1 ++ a :: l2 ∧
      mutt_addrlist_free_one (some al) (some a.ptr) = some (l1 ++ l2) ∧
      a ∉ l1 ++ l2 ∧
      (l1 ++ l2).length + 1 = al.length := by
  obtain ⟨l1, l2, h1, h2⟩ := unlink_split al a hnd ha
  refine ⟨l1, l2, h1, by simp [mutt_addrlist_free_one, h2], ?_, by simp [h1]; omega⟩
  intro hmem
  rw [h1, List.map_append, List.map_cons] at hnd
  have hd := List.nodup_append.mp hnd
  have hnd2 := List.nodup_cons.mp hd.2.1
  rcases List.mem_append.mp hmem with h | h
  · exact hd.2.2 (List.mem_map_of_mem Address.ptr h) (List.mem_cons_self _ _)
  · exact hnd2.1 (List.mem_map_of_mem Address.ptr h)

/-- Instance of C6, the third block of the test: six addresses are parsed, the
node `a` ("Another", john@doe.org) is appended, the same six are parsed again,
and `a` is freed. What remains is the twelve parsed addresses in order, the two
parsed nodes of the same content as `a` among them, with the mailboxes the test
checks one by one. -/
theorem free_one_removes_exactly_that_node_witness :
    (testList.map Address.ptr).Nodup ∧ testAddress ∈ testList ∧
    (∃ l1 l2, testList = l1 ++ testAddress :: l2 ∧
      mutt_addrlist_free_one (some testList) (some testAddress.ptr) = some (l1 ++ l2) ∧
      testAddress ∉ l1 ++ l2 ∧ (l1 ++ l2).length + 1 = testList.length) ∧
    mutt_addrlist_free_one (some testList) (some testAddress.ptr)
      = some (someAddresses 100 ++ someAddresses 300) ∧
    (someAddresses 100 ++ someAddresses 300).map Address.mailbox
      = [some "john@doe.org", some "test@example.com", some "john@doe.org",
         some "foo@bar.baz", some "john@doe.org", some "foo@baz.info",
         some "john@doe.org", some "test@example.com", some "john@doe.org",
         some "foo@bar.baz", some "john@doe.org", some "foo@baz.info"] ∧
    (⟨104, some "Another", some "john@doe.org"⟩ : Address)
      ∈ someAddresses 100 ++ someAddresses 300 ∧
    (⟨304, some "Another", some "john@doe.org"⟩ : Address)
      ∈ someAddresses 100 ++ someAddresses 300 :=
  ⟨by decide, by decide,
   free_one_removes_exactly_that_node testList testAddress (by decide) (by decide),
   by decide, by decide, by decide, by decide⟩

end AddressList

/-! ## The scoped store -/

namespace ConfigStore

open Helpers

theorem parentsBelow_spec (l : List ScopeNode) (i : Nat) (h : parentsBelow l i = true)
    (j : Nat) (node : ScopeNode) (p : Nat) (hj : l[j]? = some node)
    (hp : node.parent = some p) : p < i + j := by
  induction l generalizing i j with
  | nil => simp at hj
  | cons x rest ih =>
    simp only [parentsBelow, Bool.and_eq_true] at h
    cases j with
    | zero =>
      simp only [List.getElem?_cons_zero, Option.some.injEq] at hj
      subst hj
      have h1 := h.1
      rw [hp] at h1
      simpa using h1
    | succ j =>
      simp only [List.getElem?_cons_succ] at hj
      have := ih (i + 1) h.2 j hj
      omega

theorem wellFormed_spec (st : Store) (h : wellFormed st = true) (i : Nat) (node : ScopeNode)
    (p : Nat) (hi : st.scopes[i]? = some node) (hp : node.parent = some p) : p < i := by
  have := parentsBelow_spec st.scopes 0 h i node p hi hp
  omega

theorem lookup_putOverride (ovs : List ValueSlot) (nm : String) (par : Option Nat)
    (n : String) (k : Kind) (v : Int) :
    lookupOverride ⟨nm, par, putOverride ovs ⟨n, k, v⟩⟩ n = some ⟨n, k, v⟩ := by
  unfold lookupOverride
  simp only
  induction ovs with
  | nil => simp [putOverride]
  | cons s rest ih =>
    unfold putOverride
    by_cases h : (s.name == n) = true
    · simp [h]
    · simp only [h]
      simp only [Bool.false_eq_true, if_false, List.find?_cons, h]
      exact ih

theorem setLocal_ok (st : Store) (scope : Nat) (n : String) (k : Kind) (v : Int)
    (d : Definition) (node : ScopeNode)
    (hdef : findDefinition st.definitions n = some d) (hkind : d.kind = k)
    (hval : ∀ f, d.validator = some f → f v = true)
    (hnode : st.scopes[scope]? = some node) :
    setLocal st scope n ⟨k, v⟩ = .ok ⟨st.definitions, st.scopes.set scope
      ⟨node.name, node.parent, putOverride node.overrides ⟨n, k, v⟩⟩⟩ := by
  unfold setLocal
  rw [hdef]
  simp only [hkind, ne_eq, not_true_eq_false, if_false]
  cases hvd : d.validator with
  | none => simp only [hnode]
  | some f =>
    have := hval f hvd
    simp [this, hnode]

theorem inherits_ge (st : Store) (n : String) (scope d : Nat) (hwf : wellFormed st = true)
    (h : InheritsFrom st n scope d) : scope ≤ d := by
  induction h with
  | self => exact le_refl _
  | step d p node hnode _ hpar _ ih =>
    have := wellFormed_spec st hwf d node p hnode hpar
    omega

theorem resolve_inherits (st st2 : Store) (scope : Nat) (n : String) (slot : ValueSlot)
    (hwf : wellFormed st = true)
    (hsame : ∀ i, i ≠ scope → st2.scopes[i]? = st.scopes[i]?)
    (node2 : ScopeNode) (hat : st2.scopes[scope]? = some node2)
    (hlook : lookupOverride node2 n = some slot) (d : Nat)
    (h : InheritsFrom st n scope d) :
    ∀ fuel, d < fuel → resolveFrom st2 n fuel d = some slot := by
  induction h with
  | self =>
    intro fuel hf
    obtain ⟨f, rfl⟩ : ∃ f, fuel = f + 1 := ⟨fuel - 1, by omega⟩
    simp [resolveFrom, hat, hlook]
  | step d p node hnode hnone hpar hin ih =>
    intro fuel hf
    obtain ⟨f, rfl⟩ : ∃ f, fuel = f + 1 := ⟨fuel - 1, by omega⟩
    have hp := wellFormed_spec st hwf d node p hnode hpar
    have hge := inherits_ge st n scope p hwf hin
    have hd : st2.scopes[d]? = some node := by
      rw [hsame d (by omega)]; exact hnode
    simp only [resolveFrom, hd, hnone, hpar]
    exact ih f (by omega)

theorem resolve_frame (st st2 : Store) (scope : Nat) (n : String)
    (hwf : wellFormed st = true) (hdefs : st2.definitions = st.definitions)
    (hsame : ∀ i, i ≠ scope → st2.scopes[i]? = st.scopes[i]?) :
    ∀ fuel i, i < scope → resolveFrom st2 n fuel i = resolveFrom st n fuel i := by
  intro fuel
  induction fuel with
  | zero => intro i _; rfl
  | succ f ih =>
    intro i hi
    simp only [resolveFrom, hsame i (by omega), hdefs]
    cases hnode : st.scopes[i]? with
    | none => rfl
    | some node =>
      simp only
      cases hl : lookupOverride node n with
      | some slot => rfl
      | none =>
        simp only
        cases hpar : node.parent with
        | none => rfl
        | some p =>
          simp only
          exact ih p (by have := wellFormed_spec st hwf i node p hnode hpar; omega)

theorem getK_congr (K : Consts) (k : Kind) (st st2 : Store) (i : Nat) (n : String)
    (h : resolve st2 i n = resolve st i n) : getK K k st2 i n = getK K k st i n := by
  cases k <;>
  simp [getK, cs_subset_address, cs_subset_bool, cs_subset_long, cs_subset_number,
    cs_subset_quad, cs_subset_regex, cs_subset_slist, cs_subset_string, storeCollab, h]

theorem getK_of_resolve (K : Consts) (hK : ∀ k, K.DTYPE (tagOf K k) = tagOf K k)
    (k : Kind) (st : Store) (i : Nat) (n nm : String) (v : Int)
    (h : resolve st i n = some ⟨nm, k, v⟩) (hne : v ≠ INT_MIN) (hfit : fitsKind k v) :
    getK K k st i n = v := by
  have hk := hK k
  cases k
  case Bool =>
    simp only [tagOf] at hk
    have hb : (if castBool v = true then (1 : Int) else 0) = v := by
      rcases hfit with h0 | h1
      · subst h0; decide
      · subst h1; decide
    simp [getK, cs_subset_bool, storeCollab, h, tagOf, hk, hne, hb]
  case Number =>
    simp only [tagOf] at hk
    have hb : castShort v = v :=
      narrow_of_fits 15 v (by norm_num; exact hfit.1) (by norm_num; have := hfit.2; omega)
    simp [getK, cs_subset_number, storeCollab, h, tagOf, hk, hne, hb]
  case Quad =>
    simp only [tagOf] at hk
    have hb : castQuad v = v :=
      narrow_of_fits 31 v (by norm_num; exact hfit.1) (by norm_num; have := hfit.2; omega)
    simp [getK, cs_subset_quad, storeCollab, h, tagOf, hk, hne, hb]
  all_goals
    simp only [tagOf] at hk
    simp [getK, cs_subset_address, cs_subset_long, cs_subset_regex, cs_subset_slist,
      cs_subset_string, storeCollab, h, tagOf, hk, hne, NULL]

/-- C7, as stated, fails. In the chain `C` under `B` under `A`, where `B`
overrides the setting with 5 and `C` has no override of its own, after
`setLocal (A, n, 7)` the Long accessor returns 7 on `A` but 5, not 7, on the
descendant `C`. After `setLocal (B, n, INT_MIN)` the Long accessor on `B` itself
returns 0, not the value set. And a value the validator of `n` rejects is not
stored: `setLocal` fails and the accessor returns what it returned before. -/
theorem setLocal_shadowed_descendant_and_int_min :
    wellFormed shadowedStore = true ∧
    shadowedStore.scopes[2]? = some ⟨"C", some 1, []⟩ ∧
    shadowedStore.scopes[1]? = some ⟨"B", some 0, [⟨"pager_index_lines", .Long, 5⟩]⟩ ∧
    lookupOverride ⟨"C", some 1, []⟩ "pager_index_lines" = none ∧
    getAfterSet neomuttConsts shadowedStore 0 "pager_index_lines" ⟨.Long, 7⟩ .Long 0 = some 7 ∧
    getAfterSet neomuttConsts shadowedStore 0 "pager_index_lines" ⟨.Long, 7⟩ .Long 2 = some 5 ∧
    getAfterSet neomuttConsts sampleStore 1 "pager_index_lines" ⟨.Long, INT_MIN⟩ .Long 1
      = some 0 ∧
    (0 : Int) ≠ INT_MIN ∧
    getAfterSet neomuttConsts validatedStore 0 "pager_index_lines" ⟨.Long, -1⟩ .Long 0 = none ∧
    getK neomuttConsts .Long validatedStore 0 "pager_index_lines" = 0 := by
  decide

/-- C7, amended. Let `n` be a defined name of kind `k` and `v` a value of kind `k`
that the validator of `n`, if any, accepts and that is not INT_MIN. Then
`setLocal (scope, n, v)` succeeds, and afterwards the `k` accessor on `scope`
returns `v`; the `k` accessor returns `v` on every descendant of `scope` such
that neither it nor any scope between it and `scope` has an own override of
`n`; and on every sibling of `scope` each accessor returns what it returned
before. -/
theorem setLocal_then_get (K : Consts) (hK : ∀ k, K.DTYPE (tagOf K k) = tagOf K k)
    (st : Store) (scope : Nat) (n : String) (k : Kind) (v : Int) (d : Definition)
    (hwf : wellFormed st = true) (hscope : scope < st.scopes.length)
    (hdef : findDefinition st.definitions n = some d) (hkind : d.kind = k)
    (hval : ∀ f, d.validator = some f → f v = true)
    (hfit : fitsKind k v) (hne : v ≠ INT_MIN) :
    ∃ st2, setLocal st scope n ⟨k, v⟩ = .ok st2 ∧
      getK K k st2 scope n = v ∧
      (∀ dsc, InheritsFrom st n scope dsc → getK K k st2 dsc n = v) ∧
      (∀ s k2, Sibling st scope s → getK K k2 st2 s n = getK K k2 st s n) := by
  obtain ⟨node, hnode⟩ : ∃ node, st.scopes[scope]? = some node :=
    ⟨st.scopes[scope], List.getElem?_eq_getElem hscope⟩
  have hset := setLocal_ok st scope n k v d node hdef hkind hval hnode
  refine ⟨_, hset, ?_⟩
  have hlen : (st.scopes.set scope
      ⟨node.name, node.parent, putOverride node.overrides ⟨n, k, v⟩⟩).length
      = st.scopes.length := List.length_set _ _ _
  have hat : (st.scopes.set scope
      ⟨node.name, node.parent, putOverride node.overrides ⟨n, k, v⟩⟩)[scope]?
      = some ⟨node.name, node.parent, putOverride node.overrides ⟨n, k, v⟩⟩ :=
    List.getElem?_set_self hscope
  have hsame : ∀ i, i ≠ scope → (st.scopes.set scope
      ⟨node.name, node.parent, putOverride node.overrides ⟨n, k, v⟩⟩)[i]?
      = st.scopes[i]? := fun i hi => List.getElem?_set_ne (Ne.symm hi)
  have hlook := lookup_putOverride node.overrides node.name node.parent n k v
  have hinh : ∀ dsc, InheritsFrom st n scope dsc →
      getK K k ⟨st.definitions, st.scopes.set scope
        ⟨node.name, node.parent, putOverride node.overrides ⟨n, k, v⟩⟩⟩ dsc n = v := by
    intro dsc hd
    have hlt : dsc < st.scopes.length := by
      cases hd with
      | self => exact hscope
      | step _ p nd hnd _ _ _ => exact (List.getElem?_eq_some.mp hnd).1
    apply getK_of_resolve K hK k _ dsc n n v _ hne hfit
    unfold resolve
    exact resolve_inherits st _ scope n ⟨n, k, v⟩ hwf hsame _ hat hlook dsc hd _
      (by simp only [hlen]; exact hlt)
  refine ⟨hinh scope InheritsFrom.self, hinh, ?_⟩
  rintro s k2 ⟨hs, a, b, ha, hb, hab⟩
  apply getK_congr
  have hslt : s < st.scopes.length := (List.getElem?_eq_some.mp hb).1
  unfold resolve
  simp only [hlen]
  obtain ⟨f, hf⟩ : ∃ f, st.scopes.length = f + 1 := ⟨st.scopes.length - 1, by omega⟩
  rw [hf]
  simp only [resolveFrom, hsame s hs, hb]
  cases hl : lookupOverride b n with
  | some slot => rfl
  | none =>
    simp only
    cases hpar : b.parent with
    | none => rfl
    | some p =>
      simp only
      have hp : p < scope :=
        wellFormed_spec st hwf scope a p (by rw [ha]) (by rw [hab, hpar])
      exact resolve_frame st ⟨st.definitions, st.scopes.set scope
        ⟨node.name, node.parent, putOverride node.overrides ⟨n, k, v⟩⟩⟩ scope n hwf rfl
        hsame f p hp

/-- Instance of C7, amended: in the store with `B` and `D` under `A` and `C` under
`B`, after `setLocal (B, pager_index_lines, 10)` the Long accessor returns 10 on
`B` and on its child `C`, and still 3 on the sibling `D`. -/
theorem setLocal_then_get_witness :
    wellFormed sampleStore = true ∧ 1 < sampleStore.scopes.length ∧
    InheritsFrom sampleStore "pager_index_lines" 1 2 ∧ Sibling sampleStore 1 3 ∧
    (∃ st2, setLocal sampleStore 1 "pager_index_lines" ⟨.Long, 10⟩ = .ok st2 ∧
      getK neomuttConsts .Long st2 1 "pager_index_lines" = 10 ∧
      getK neomuttConsts .Long st2 2 "pager_index_lines" = 10 ∧
      getK neomuttConsts .Long st2 3 "pager_index_lines" = 3) :=
  have hin : InheritsFrom sampleStore "pager_index_lines" 1 2 :=
    InheritsFrom.step 2 1 ⟨"C", some 1, []⟩ rfl rfl rfl InheritsFrom.self
  have hsib : Sibling sampleStore 1 3 :=
    ⟨by decide, ⟨"B", some 0, []⟩, ⟨"D", some 0, [⟨"pager_index_lines", .Long, 3⟩]⟩,
      rfl, rfl, rfl⟩
  ⟨by decide, by decide, hin, hsib,
   match setLocal_then_get neomuttConsts (fun k => by cases k <;> rfl) sampleStore 1
      "pager_index_lines" .Long 10 ⟨"pager_index_lines", .Long, 0, none⟩
      (by decide) (by decide) rfl rfl (fun f hf => by cases hf) trivial (by decide) with
   | ⟨st2, h1, h2, h3, h4⟩ =>
     ⟨st2, h1, h2, h3 2 hin, (h4 3 .Long hsib).trans (by decide)⟩⟩

end ConfigStore
